import Mathlib

/-!
Verification of the accel GPU framework core (Rust) via a shallow embedding.

Source files embedded:
- src/accel/src/memory/host.rs  (copy_to_host dispatcher, PageLockedMemory)
- src/accel/src/memory/mod.rs   (MemoryType, Memory capability set)
- src/accel/src/device.rs       (Context, ContextGuard, Device::get_name)
- src/accel/src/module.rs       (Arguments::kernel_params, Module drop)

Machine addresses and native handles are modelled as Nat (0 is the null
pointer).  Element values are modelled as Int.  Rust panics (assert!,
unimplemented!, expect/unwrap) and recoverable Result errors are kept as
distinct constructors of the outcome types, since the error-handling design
distinguishes them.
-/

namespace Accel

/-- MemoryType from src/accel/src/memory/mod.rs: the closed tag set used for
copy dispatch. -/
inductive MemoryType
  | Host
  | Registered
  | PageLocked
  | Device
  | Array
  deriving DecidableEq, Repr

/-- A memory object as seen through the Memory trait of memory/mod.rs:
head address, byte size, kind tag, the optional contiguous-slice view
(try_as_slice, None when the kind has no slice view), and the optional
owning-context handle (try_get_context). -/
structure Mem where
  headAddr : Nat
  byteSize : Nat
  memType : MemoryType
  slice : Option (List Int)
  context : Option Nat
  deriving DecidableEq, Repr

/-- The observable effect of one copy_to_host call: either an ordinary
element-wise host copy through the slice views, or the native
cuMemcpyDtoH_v2 transfer with its three arguments. -/
inductive CopyEffect
  | sliceCopy
  | dtoh (destPtr : Nat) (srcPtr : Nat) (nbytes : Nat)
  deriving DecidableEq, Repr

/-- Outcome of copy_to_host.  ok carries the updated destination, the effect
performed and the context handle that was guarded (none when no guard was
taken).  panic models a Rust panic (assert!, unimplemented!, expect);
recoverableError models a Result::Err returned to the caller — copy_from
returns unit in the source, so copy_to_host never produces one, but the
constructor keeps the two failure classes distinguishable. -/
inductive CopyResult
  | ok (dest : Mem) (effect : CopyEffect) (guard : Option Nat)
  | panic (msg : String)
  | recoverableError (msg : String)
  deriving DecidableEq, Repr

/-- Whether the outcome is a Rust panic. -/
def CopyResult.isPanic : CopyResult → Bool
  | .panic _ => true
  | _ => false

/-- Whether the outcome is a recoverable error returned to the caller. -/
def CopyResult.isRecoverableError : CopyResult → Bool
  | .recoverableError _ => true
  | _ => false

/-- The effect performed by a completed copy; none when the operation did
not complete. -/
def CopyResult.effectOf : CopyResult → Option CopyEffect
  | .ok _ e _ => some e
  | _ => none

/-- Shallow embedding of copy_to_host (src/accel/src/memory/host.rs lines
91-132).  The two asserts run first; then the dispatch on the source kind:
host-like kinds copy element-wise through both slice views (unwrap panics
when a view is absent, copy_from_slice panics on length mismatch); Device
resolves the context guard then issues cuMemcpyDtoH_v2 with the destination
head address, the source head address and dest.byte_size(); Array hits
unimplemented!. -/
def copy_to_host (dest src : Mem) : CopyResult :=
  if dest.headAddr = src.headAddr then
    .panic "assertion failed: dest.head_addr() != src.head_addr()"
  else if dest.byteSize ≠ src.byteSize then
    .panic "assertion failed: dest.byte_size() == src.byte_size()"
  else
    match src.memType with
    | .Host | .Registered | .PageLocked =>
      match dest.slice, src.slice with
      | some d, some s =>
        if d.length = s.length then
          .ok { dest with slice := some s } .sliceCopy none
        else
          .panic "source slice length does not match destination slice length"
      | _, _ => .panic "called Option::unwrap() on a None value"
    | .Device =>
      match dest.context, src.context with
      | some dctx, some sctx =>
        if dctx = sctx then
          .ok dest (.dtoh dest.headAddr src.headAddr dest.byteSize) (some dctx)
        else
          .panic "assertion failed: d_ctx == s_ctx"
      | some c, none => .ok dest (.dtoh dest.headAddr src.headAddr dest.byteSize) (some c)
      | none, some c => .ok dest (.dtoh dest.headAddr src.headAddr dest.byteSize) (some c)
      | none, none => .ok dest (.dtoh dest.headAddr src.headAddr dest.byteSize) none
    | .Array => .panic "Array memory is not supported yet"

/-- The destination contents after a copy_to_host call: a panic aborts the
operation before any write, so on a non-ok outcome the destination keeps its
pre-call state. -/
def destAfter (dest src : Mem) : Mem :=
  match copy_to_host dest src with
  | .ok d _ _ => d
  | _ => dest

/-! The thread-local current-context stack (src/accel/src/device.rs).
The stack is a list of native context handles, newest first; 0 is the null
handle.  Context push, pop and create are total functions of the stack. -/

/-- Outcome of a stack operation: ok with the updated stack (and possibly a
value), or a fatal fault (Rust panic via expect/assert) which the source
treats as unrecoverable. -/
inductive PopResult
  | ok (stack : List Nat)
  | fatal (msg : String)
  deriving DecidableEq, Repr

/-- Native cuCtxPushCurrent_v2: pushes the handle onto the thread stack
(Context::push, device.rs lines 140-144; the expect there fires only on a
native failure, which is not modelled — the push itself always stacks). -/
def ctxPush (h : Nat) (stack : List Nat) : List Nat := h :: stack

/-- Native cuCtxPopCurrent_v2: removes and returns the top handle, or the
null handle 0 when there is no current context. -/
def cuCtxPopCurrent (stack : List Nat) : Nat × List Nat :=
  match stack with
  | [] => (0, [])
  | h :: t => (h, t)

/-- Context::pop (device.rs lines 147-157): pops the native stack, panics
when the popped handle is null, and asserts that the popped handle equals
the handle of this Context. -/
def ctxPop (c : Nat) (stack : List Nat) : PopResult :=
  let p := cuCtxPopCurrent stack
  if p.1 = 0 then .fatal "No current context"
  else if p.1 = c then .ok p.2
  else .fatal "Pop must return same pointer"

/-- ContextGuard round trip (device.rs lines 89-101): guard_context pushes
the context on construction and Context::pop runs on drop. -/
def guardRoundTrip (c : Nat) (stack : List Nat) : PopResult :=
  ctxPop c (ctxPush c stack)

/-- Native cuCtxCreate_v2: allocates a fresh context handle and pushes it
onto the calling thread stack, returning the handle. -/
def cuCtxCreate (newHandle : Nat) (stack : List Nat) : Nat × List Nat :=
  (newHandle, newHandle :: stack)

/-- Outcome of Context::create: ok carries the returned owning handle and
the final thread stack. -/
inductive CreateResult
  | ok (handle : Nat) (stack : List Nat)
  | fatal (msg : String)
  deriving DecidableEq, Repr

/-- Context::create (device.rs lines 160-175): cuCtxCreate_v2 puts the new
context on top of the stack and yields its handle; a null handle is a
panic; then ctx.pop() immediately pops it off before the handle is
returned. -/
def contextCreate (newHandle : Nat) (stack : List Nat) : CreateResult :=
  let r := cuCtxCreate newHandle stack
  if r.1 = 0 then .fatal "Cannot crate a new context"
  else
    match ctxPop r.1 r.2 with
    | .ok s => .ok r.1 s
    | .fatal m => .fatal m

/-! Memory allocation (src/accel/src/memory/host.rs PageLockedMemory::new;
DeviceMemory::new is in memory/device.rs, absent from src/, so it is
modelled from the spec).  Each constructor is a function of the context
handle, the element count, the element byte width and the address the
native allocator would return; the Bool records whether the native
allocation call was issued. -/

/-- PageLockedMemory::new (host.rs lines 163-173): asserts size > 0 with
message "Zero-sized malloc is forbidden" before the contexted cuMemAllocHost_v2
call, then builds the object from the returned pointer. -/
def pageLockedNew (ctx : Nat) (size elemBytes allocAddr : Nat) :
    Bool × Except String Mem :=
  if size = 0 then (false, .error "Zero-sized malloc is forbidden")
  else
    (true, .ok { headAddr := allocAddr, byteSize := size * elemBytes,
                 memType := .PageLocked,
                 slice := some (List.replicate size 0),
                 context := some ctx })

/-- Modelled from the spec: DeviceMemory::new lives in
src/accel/src/memory/device.rs, which is not present under src/.  Per spec
section 4.2 ("Allocation of zero elements must fail fast") and the repo
test device_new_zero in host.rs, which expects the panic "Zero-sized malloc
is forbidden", the constructor rejects size == 0 before the native
cuMemAlloc call, exactly as PageLockedMemory::new does, and otherwise
allocates device-resident memory bound to the context. -/
def deviceMemoryNew (ctx : Nat) (size elemBytes allocAddr : Nat) :
    Bool × Except String Mem :=
  if size = 0 then (false, .error "Zero-sized malloc is forbidden")
  else
    (true, .ok { headAddr := allocAddr, byteSize := size * elemBytes,
                 memType := .Device,
                 slice := some (List.replicate size 0),
                 context := some ctx })

/-! Kernel argument marshalling (src/accel/src/module.rs lines 76-105).
A device-sendable argument is passed by reference; a reference is modelled
as the address of the storage cell of the referenced value together with
the value stored there.  DeviceSend::as_ptr returns the address of the
value itself. -/

/-- A reference to one device-sendable scalar or pointer value: the address
of the storage of the value, and the value it holds. -/
structure DSRef where
  addr : Nat
  value : Int
  deriving DecidableEq, Repr

/-- Arguments::kernel_params, as generated by impl_kernel_parameters for
each tuple arity 0 through 12: vec of self.0.as_ptr(), self.1.as_ptr(), ...
in tuple order.  The macro-generated fixed-arity tuples are modelled as a
list of references of the matching length. -/
def kernel_params (args : List DSRef) : List Nat :=
  args.map DSRef.addr

/-! Device::get_name (src/accel/src/device.rs lines 54-65).  The query
buffer is vec of 1024 zero bytes; cuDeviceGetName writes the device name
NUL-terminated at its start; the whole 1024-byte buffer is converted to a
String.  Bytes are modelled as Nat. -/

/-- Native cuDeviceGetName writing into a zero-initialized buffer: the name
bytes overwrite the start of the buffer, the rest keeps its contents (the
closing NUL the driver writes equals the zero already there). -/
def writeName (name buf : List Nat) : List Nat :=
  name ++ buf.drop name.length

/-- Device::get_name: allocate 1024 zero bytes, let the driver fill in the
name, and return the entire buffer as the resulting string (the source
calls String::from_utf8 on the whole Vec, which keeps every byte). -/
def get_name (name : List Nat) : List Nat :=
  writeName name (List.replicate 1024 0)

/-! Destructors (Context::drop in device.rs lines 127-133,
PageLockedMemory::drop in host.rs lines 18-24, Module::drop in module.rs
lines 188-192).  Each drop is a function of the result of its native
teardown call. -/

/-- What a destructor does: return cleanly, log the teardown failure and
continue, or panic through the unwind path. -/
inductive DropOutcome
  | clean
  | logged (msg : String)
  | panicked (msg : String)
  deriving DecidableEq, Repr

/-- Whether the destructor panicked. -/
def DropOutcome.isPanicked : DropOutcome → Bool
  | .panicked _ => true
  | _ => false

/-- Context::drop: cuCtxDestroy_v2 failure is logged with log::error,
never propagated. -/
def contextDrop : Except Nat Unit → DropOutcome
  | .ok _ => .clean
  | .error _ => .logged "Context remove failed"

/-- PageLockedMemory::drop: cuMemFreeHost failure is logged with
log::error, never propagated. -/
def pageLockedMemoryDrop : Except Nat Unit → DropOutcome
  | .ok _ => .clean
  | .error _ => .logged "Cannot free page-locked memory"

/-- Module::drop: cuModuleUnload failure goes through expect, which
panics. -/
def moduleDrop : Except Nat Unit → DropOutcome
  | .ok _ => .clean
  | .error _ => .panicked "Failed to unload module"

/-! Theorems. -/

/-- C1: for every call to copy_from(dest, src) where the kind of src is
Host, Registered or PageLocked, the copy is an ordinary element-wise memory
copy through both contiguous-slice views and no native device transfer
primitive is invoked; and for every Device-kind source, whenever the copy
completes, the invoked primitive is cuMemcpyDtoH_v2 applied to the head
address of dest, the head address of src and the common byte size. -/
theorem c1_copy_dispatch (dest src : Mem) (d s : List Int)
    (hne : dest.headAddr ≠ src.headAddr)
    (hsz : dest.byteSize = src.byteSize)
    (hd : dest.slice = some d) (hs : src.slice = some s)
    (hlen : d.length = s.length) :
    ((src.memType = .Host ∨ src.memType = .Registered ∨ src.memType = .PageLocked) →
      copy_to_host dest src = .ok { dest with slice := some s } .sliceCopy none) ∧
    (src.memType = .Device →
      (copy_to_host dest src).effectOf = none ∨
      (copy_to_host dest src).effectOf =
        some (.dtoh dest.headAddr src.headAddr dest.byteSize)) := by
  constructor
  · intro hk
    rcases hk with h | h | h <;>
      simp [copy_to_host, hne, hsz, hd, hs, hlen, h]
  · intro hdev
    simp only [copy_to_host, if_neg hne, hsz, ne_eq, not_true_eq_false, if_false, hdev]
    rcases dest.context with _ | dc <;> rcases src.context with _ | sc <;>
      simp [CopyResult.effectOf]
    by_cases hc : dc = sc <;> simp [hc, CopyResult.effectOf]

/-- Witness for c1_copy_dispatch at a concrete host-to-host pair. -/
theorem c1_copy_dispatch_witness :
    copy_to_host
      { headAddr := 100, byteSize := 8, memType := .PageLocked,
        slice := some [0, 0], context := some 1 }
      { headAddr := 200, byteSize := 8, memType := .Host,
        slice := some [5, 6], context := none }
      = .ok { headAddr := 100, byteSize := 8, memType := .PageLocked,
              slice := some [5, 6], context := some 1 } .sliceCopy none :=
  (c1_copy_dispatch
    { headAddr := 100, byteSize := 8, memType := .PageLocked,
      slice := some [0, 0], context := some 1 }
    { headAddr := 200, byteSize := 8, memType := .Host,
      slice := some [5, 6], context := none }
    [0, 0] [5, 6] (by decide) rfl rfl rfl rfl).1 (Or.inl rfl)

/-- C2: for a Device-kind source, the context guard is resolved from the
two operands — equal reported contexts are required when both report one
(a mismatch aborts the copy before the transfer), the pair determines which
context handle is made current during the transfer, and no guard is taken
when neither operand reports a context. -/
theorem c2_context_resolution (dest src : Mem)
    (hne : dest.headAddr ≠ src.headAddr)
    (hsz : dest.byteSize = src.byteSize)
    (hdev : src.memType = .Device) :
    (∀ dc sc, dest.context = some dc → src.context = some sc → dc ≠ sc →
      copy_to_host dest src = .panic "assertion failed: d_ctx == s_ctx") ∧
    (∀ c, dest.context = some c → src.context = some c →
      copy_to_host dest src =
        .ok dest (.dtoh dest.headAddr src.headAddr dest.byteSize) (some c)) ∧
    (∀ c, dest.context = some c → src.context = none →
      copy_to_host dest src =
        .ok dest (.dtoh dest.headAddr src.headAddr dest.byteSize) (some c)) ∧
    (∀ c, dest.context = none → src.context = some c →
      copy_to_host dest src =
        .ok dest (.dtoh dest.headAddr src.headAddr dest.byteSize) (some c)) ∧
    (dest.context = none → src.context = none →
      copy_to_host dest src =
        .ok dest (.dtoh dest.headAddr src.headAddr dest.byteSize) none) := by
  refine ⟨?_, ?_, ?_, ?_, ?_⟩ <;>
    simp only [copy_to_host, if_neg hne, hsz, ne_eq, not_true_eq_false, if_false, hdev]
  · intro dc sc hdc hsc hneq
    simp [hdc, hsc, hneq]
  · intro c hdc hsc
    simp [hdc, hsc]
  · intro c hdc hsc
    simp [hdc, hsc]
  · intro c hdc hsc
    simp [hdc, hsc]
  · intro hdc hsc
    simp [hdc, hsc]

/-- Witness for c2_context_resolution: both operands on context 1. -/
theorem c2_context_resolution_witness :
    copy_to_host
      { headAddr := 100, byteSize := 8, memType := .PageLocked,
        slice := some [0, 0], context := some 1 }
      { headAddr := 200, byteSize := 8, memType := .Device,
        slice := some [5, 6], context := some 1 }
      = .ok { headAddr := 100, byteSize := 8, memType := .PageLocked,
              slice := some [0, 0], context := some 1 }
          (.dtoh 100 200 8) (some 1) :=
  ((c2_context_resolution
    { headAddr := 100, byteSize := 8, memType := .PageLocked,
      slice := some [0, 0], context := some 1 }
    { headAddr := 200, byteSize := 8, memType := .Device,
      slice := some [5, 6], context := some 1 }
    (by decide) rfl rfl).2.1) 1 rfl rfl

/-- C3 counterexample: at a concrete Array-kind source, copy_from does not
return a recoverable not-supported error to the caller — it hits
unimplemented!, a panic (copy_from returns unit in the source and has no
error channel at all). -/
theorem c3_array_counterexample :
    copy_to_host
      { headAddr := 100, byteSize := 8, memType := .Host,
        slice := some [0, 0], context := none }
      { headAddr := 200, byteSize := 8, memType := .Array,
        slice := none, context := some 1 }
      = .panic "Array memory is not supported yet" ∧
    (copy_to_host
      { headAddr := 100, byteSize := 8, memType := .Host,
        slice := some [0, 0], context := none }
      { headAddr := 200, byteSize := 8, memType := .Array,
        slice := none, context := some 1 }).isRecoverableError = false :=
  ⟨rfl, rfl⟩

/-- C3 amended: for every call to copy_from(dest, src) where the declared
kind of src is Array (and the alias and size preconditions pass), the
operation fails fast with the not-implemented panic "Array memory is not
supported yet" — a fatal signal distinct from a native-call failure — and
never as a recoverable error value returned to the caller. -/
theorem c3_array_amended (dest src : Mem)
    (hne : dest.headAddr ≠ src.headAddr)
    (hsz : dest.byteSize = src.byteSize)
    (harr : src.memType = .Array) :
    copy_to_host dest src = .panic "Array memory is not supported yet" ∧
    (copy_to_host dest src).isRecoverableError = false := by
  have h : copy_to_host dest src = .panic "Array memory is not supported yet" := by
    simp [copy_to_host, hne, hsz, harr]
  exact ⟨h, by simp [h, CopyResult.isRecoverableError]⟩

/-- Witness for c3_array_amended at a concrete Array-kind source. -/
theorem c3_array_amended_witness :
    copy_to_host
      { headAddr := 10, byteSize := 4, memType := .Host,
        slice := some [7], context := none }
      { headAddr := 20, byteSize := 4, memType := .Array,
        slice := none, context := some 1 }
      = .panic "Array memory is not supported yet" :=
  (c3_array_amended
    { headAddr := 10, byteSize := 4, memType := .Host,
      slice := some [7], context := none }
    { headAddr := 20, byteSize := 4, memType := .Array,
      slice := none, context := some 1 }
    (by decide) rfl rfl).1

/-- C4 counterexample: dropping a Module whose native unload call fails
panics through expect instead of logging, at the concrete native error
code 1. -/
theorem c4_drop_counterexample :
    moduleDrop (Except.error 1) = DropOutcome.panicked "Failed to unload module" ∧
    (moduleDrop (Except.error 1)).isPanicked = true :=
  ⟨rfl, rfl⟩

/-- C4 amended: dropping a Context or a page-locked Memory object never
propagates a failure of the native destroy/free call — the error is logged
only and those destructors never panic; dropping a Module, however, panics
through expect whenever the native unload call fails, and only a
successful unload returns cleanly. -/
theorem c4_drop_amended (r : Except Nat Unit) (e : Nat) :
    (contextDrop r).isPanicked = false ∧
    (pageLockedMemoryDrop r).isPanicked = false ∧
    contextDrop (Except.error e) = .logged "Context remove failed" ∧
    pageLockedMemoryDrop (Except.error e) = .logged "Cannot free page-locked memory" ∧
    moduleDrop (Except.error e) = .panicked "Failed to unload module" ∧
    moduleDrop (Except.ok ()) = .clean := by
  cases r <;>
    simp [contextDrop, pageLockedMemoryDrop, moduleDrop, DropOutcome.isPanicked]

/-- C5: copy_from aborts before touching any memory element both when the
byte sizes of the operands differ and when dest and src share the same head
address: the outcome is a panic, no copy effect is performed, and the
destination keeps its pre-call contents. -/
theorem c5_precondition_abort (dest src : Mem)
    (h : dest.byteSize ≠ src.byteSize ∨ dest.headAddr = src.headAddr) :
    (copy_to_host dest src).isPanic = true ∧
    (copy_to_host dest src).effectOf = none ∧
    destAfter dest src = dest := by
  rcases h with h | h
  · by_cases ha : dest.headAddr = src.headAddr <;>
      simp [copy_to_host, destAfter, ha, h, CopyResult.isPanic, CopyResult.effectOf]
  · simp [copy_to_host, destAfter, h, CopyResult.isPanic, CopyResult.effectOf]

/-- Witness for c5_precondition_abort: copying a memory object onto
itself (same head address). -/
theorem c5_precondition_abort_witness :
    (copy_to_host
      { headAddr := 50, byteSize := 8, memType := .Host,
        slice := some [1, 2], context := none }
      { headAddr := 50, byteSize := 8, memType := .Host,
        slice := some [1, 2], context := none }).isPanic = true ∧
    (copy_to_host
      { headAddr := 50, byteSize := 8, memType := .Host,
        slice := some [1, 2], context := none }
      { headAddr := 50, byteSize := 8, memType := .Host,
        slice := some [1, 2], context := none }).effectOf = none ∧
    destAfter
      { headAddr := 50, byteSize := 8, memType := .Host,
        slice := some [1, 2], context := none }
      { headAddr := 50, byteSize := 8, memType := .Host,
        slice := some [1, 2], context := none }
      = { headAddr := 50, byteSize := 8, memType := .Host,
          slice := some [1, 2], context := none } :=
  c5_precondition_abort
    { headAddr := 50, byteSize := 8, memType := .Host,
      slice := some [1, 2], context := none }
    { headAddr := 50, byteSize := 8, memType := .Host,
      slice := some [1, 2], context := none }
    (Or.inr rfl)

/-- C6: for any Context handle c (non-null, as every live Context holds a
non-null pointer), acquiring a ContextGuard and then releasing it restores
the calling-thread current-context stack exactly: the push puts c on top
and the pop removes it and checks it, returning the original stack; a null
popped handle (empty stack) or a mismatched popped handle is a fatal fault,
not a recoverable error. -/
theorem c6_guard_round_trip (c : Nat) (stack : List Nat) (hc : c ≠ 0) :
    guardRoundTrip c stack = .ok stack ∧
    ctxPop c [] = .fatal "No current context" ∧
    (∀ h, h ≠ 0 → h ≠ c → ctxPop c (h :: stack) = .fatal "Pop must return same pointer") := by
  refine ⟨?_, ?_, ?_⟩
  · simp [guardRoundTrip, ctxPush, ctxPop, cuCtxPopCurrent, hc]
  · simp [ctxPop, cuCtxPopCurrent]
  · intro h h0 hne
    simp [ctxPop, cuCtxPopCurrent, h0, hne]

/-- Witness for c6_guard_round_trip at handle 1 over the stack with 2 on
top. -/
theorem c6_guard_round_trip_witness :
    guardRoundTrip 1 [2] = .ok [2] :=
  (c6_guard_round_trip 1 [2] (by decide)).1

/-- C7: Context::create makes the new native context on top of the calling
thread stack and immediately pops it, so it returns the owning handle with
the stack exactly as before the call, and the new context is not current
when create returns (the fresh handle is not already on the stack). -/
theorem c7_create_pops (h : Nat) (stack : List Nat)
    (hh : h ≠ 0) (hfresh : h ∉ stack) :
    contextCreate h stack = .ok h stack ∧ stack.head? ≠ some h := by
  constructor
  · simp [contextCreate, cuCtxCreate, ctxPop, cuCtxPopCurrent, hh]
  · intro hEq
    cases stack with
    | nil => simp at hEq
    | cons a t =>
      simp only [List.head?_cons, Option.some.injEq] at hEq
      exact hfresh (hEq ▸ List.mem_cons_self a t)

/-- Witness for c7_create_pops at fresh handle 5 over the stack with 3 on
top. -/
theorem c7_create_pops_witness :
    contextCreate 5 [3] = .ok 5 [3] ∧ ([3] : List Nat).head? ≠ some 5 :=
  c7_create_pops 5 [3] (by decide) (by decide)

/-- C8: a zero-element allocation request is rejected before any native
allocation call, for the page-locked constructor (from the source) and the
device-resident constructor (modelled from the spec): the native call flag
is false and the panic "Zero-sized malloc is forbidden" fires, so no
zero-length memory object is ever produced. -/
theorem c8_zero_alloc (ctx size elemBytes allocAddr : Nat) (hz : size = 0) :
    pageLockedNew ctx size elemBytes allocAddr =
      (false, .error "Zero-sized malloc is forbidden") ∧
    deviceMemoryNew ctx size elemBytes allocAddr =
      (false, .error "Zero-sized malloc is forbidden") := by
  subst hz
  simp [pageLockedNew, deviceMemoryNew]

/-- Witness for c8_zero_alloc at context 1, element width 4, allocator
address 100. -/
theorem c8_zero_alloc_witness :
    pageLockedNew 1 0 4 100 = (false, .error "Zero-sized malloc is forbidden") ∧
    deviceMemoryNew 1 0 4 100 = (false, .error "Zero-sized malloc is forbidden") :=
  c8_zero_alloc 1 0 4 100 rfl

/-- C9: kernel_params returns one entry per tuple element, in tuple order,
each entry being the address of the storage of that element, and the
result is independent of the values the elements hold. -/
theorem c9_kernel_params (args : List DSRef) (_har : args.length ≤ 12) :
    (kernel_params args).length = args.length ∧
    (∀ i (h1 : i < args.length) (h2 : i < (kernel_params args).length),
      (kernel_params args).get ⟨i, h2⟩ = (args.get ⟨i, h1⟩).addr) ∧
    (∀ f : DSRef → Int,
      kernel_params (args.map fun r => { r with value := f r }) = kernel_params args) := by
  refine ⟨by simp [kernel_params], ?_, ?_⟩
  · intro i h1 h2
    simp [kernel_params]
  · intro f
    simp [kernel_params]

/-- Witness for c9_kernel_params on a two-argument tuple. -/
theorem c9_kernel_params_witness :
    (kernel_params [{ addr := 100, value := 7 }, { addr := 200, value := 9 }]).length = 2 :=
  (c9_kernel_params [{ addr := 100, value := 7 }, { addr := 200, value := 9 }]
    (by decide)).1

/-- Helper: takeWhile over an append whose first part wholly satisfies the
predicate. -/
theorem takeWhile_append_of_forall (p : Nat → Bool) (l1 l2 : List Nat)
    (h : ∀ x ∈ l1, p x = true) :
    (l1 ++ l2).takeWhile p = l1 ++ l2.takeWhile p := by
  induction l1 with
  | nil => simp
  | cons a t ih =>
    simp only [List.cons_append, List.takeWhile_cons]
    rw [h a (List.mem_cons_self a t)]
    simp [ih fun x hx => h x (List.mem_cons_of_mem a hx)]

/-- Helper: takeWhile with the nonzero test over a run of zero bytes is
empty. -/
theorem takeWhile_ne_zero_replicate (k : Nat) :
    (List.replicate k 0).takeWhile (fun b => b != 0) = [] := by
  cases k with
  | zero => simp
  | succ n => simp [List.replicate_succ, List.takeWhile_cons]

/-- C10: a successful Device::get_name returns exactly the 1024-byte query
buffer: the device name followed by trailing NUL padding, with length 1024
and not truncated at the first NUL terminator. -/
theorem c10_get_name (name : List Nat) (hlen : name.length < 1024)
    (hnz : 0 ∉ name) :
    (get_name name).length = 1024 ∧
    get_name name = name ++ List.replicate (1024 - name.length) 0 ∧
    (get_name name).takeWhile (fun b => b != 0) = name ∧
    get_name name ≠ (get_name name).takeWhile (fun b => b != 0) := by
  have h2 : get_name name = name ++ List.replicate (1024 - name.length) 0 := by
    unfold get_name writeName
    rw [List.drop_replicate]
  have h1 : (get_name name).length = 1024 := by
    rw [h2]
    simp only [List.length_append, List.length_replicate]
    omega
  have hall : ∀ x ∈ name, (fun b => b != 0) x = true := by
    intro x hx
    simp only [bne_iff_ne, ne_eq]
    intro h0
    exact hnz (h0 ▸ hx)
  have h3 : (get_name name).takeWhile (fun b => b != 0) = name := by
    rw [h2, takeWhile_append_of_forall _ _ _ hall, takeWhile_ne_zero_replicate,
      List.append_nil]
  refine ⟨h1, h2, h3, ?_⟩
  intro hEq
  have hL := congrArg List.length hEq
  rw [h1, h3] at hL
  omega

/-- Witness for c10_get_name on a concrete two-byte device name. -/
theorem c10_get_name_witness :
    (get_name [72, 105]).length = 1024 :=
  (c10_get_name [72, 105] (by decide) (by decide)).1

end Accel
